import Mathlib

/-!
Verification development for the exodus-gw commit engine
(`exodus_gw/worker/publish.py` and `exodus_gw/settings.py`).

The Python code is shallowly embedded: pure helpers become Lean functions,
the stateful commit flow becomes explicit state passing over a `St` record
together with an event trace, exceptions become `Except`/`Option` values,
and the nondeterministic outcomes of external I/O (DynamoDB writes, the
autoindex enricher) are parameters collected in an `Oracle` record.
-/

/-- Task states (`exodus_gw.schemas.TaskStates`), as used by the commit
worker: `NOT_STARTED`, `IN_PROGRESS`, `COMPLETE`, `FAILED`. -/
inductive TaskStates where
  | not_started
  | in_progress
  | complete
  | failed
deriving DecidableEq, Repr

/-- Publish states (`exodus_gw.schemas.PublishStates`):
`PENDING`, `COMMITTING`, `COMMITTED`, `FAILED`. -/
inductive PublishStates where
  | pending
  | committing
  | committed
  | failed
deriving DecidableEq, Repr

/-- Commit modes (`exodus_gw.models.CommitModes`): the actor dispatches to
`CommitPhase1` or `CommitPhase2` on this value. -/
inductive CommitModes where
  | phase1
  | phase2
deriving DecidableEq, Repr

/-- Python exceptions appearing in the embedded code paths. `full` is
`queue.Full`, `empty` is `queue.Empty`; `runtimeError` / `valueError` are
`RuntimeError` / `ValueError` with their message; `other` covers any other
exception raised by external collaborators (DynamoDB, autoindex). -/
inductive Exc where
  | full
  | empty
  | runtimeError (msg : String)
  | valueError (msg : String)
  | other (msg : String)
deriving DecidableEq, Repr

/-- Embeds `str.removeprefix("/")`: drops one leading slash if present. -/
def stripLeadingSlash (p : String) : String :=
  match p with
  | ⟨'/' :: rest⟩ => ⟨rest⟩
  | _ => p

/-- Embeds `os.path.basename` for POSIX paths: the part of the string after
the last `'/'` (the whole string when there is no slash). -/
def basename (p : String) : String :=
  ⟨(p.data.reverse.takeWhile (fun c => c ≠ '/')).reverse⟩

/-- Embeds `os.path.dirname` for POSIX paths: everything up to the last
`'/'`; trailing slashes are stripped from the result unless the result
consists only of slashes. -/
def posixDirname (p : String) : String :=
  match p.data.reverse.dropWhile (fun c => c ≠ '/') with
  | [] => ""
  | sl =>
    if sl.all (fun c => c = '/') then ⟨sl.reverse⟩
    else ⟨(sl.dropWhile (fun c => c = '/')).reverse⟩

/-- The slice of `exodus_gw.settings.Settings` used by the commit worker.
A compiled regular expression (`re.Pattern`) is embedded by its `search`
semantics: a function from the string to "a match exists". -/
structure Settings where
  autoindex_filename : String
  entry_point_files : List String
  phase2_patterns : List (String → Bool)
  item_yield_size : Nat
  cdn_flush_on_commit : Bool

/-- The slice of the `Item` ORM model used by the commit worker.
`object_key` is `""` when the column is NULL or empty (the code only ever
tests its truthiness). -/
structure Item where
  id : String
  web_uri : String
  object_key : String
  dirty : Bool
deriving DecidableEq, Repr

/-- `exodus_gw.settings.CacheFlushRule`; `includes` / `excludes` patterns
are embedded by their `search` semantics, as in `Settings`. -/
structure CacheFlushRule where
  name : String
  templates : List String
  includes : List (String → Bool)
  excludes : List (String → Bool)

/-- Embeds `CacheFlushRule.matches`: normalize the path to have exactly the
code's leading slash (`"/" + path.removeprefix("/")`), then require at
least one `includes` pattern to match (the `for`/`else` loop) and no
`excludes` pattern to match. -/
def CacheFlushRule.matches (rule : CacheFlushRule) (path : String) : Bool :=
  let p := "/" ++ stripLeadingSlash path
  if rule.includes.any (fun pat => pat p) then
    if rule.excludes.any (fun pat => pat p) then false else true
  else false

/-- Embeds `CommitBase.is_phase2`: an item is handled in phase 2 when the
basename of its `web_uri` is the autoindex filename or one of the
`entry_point_files`, or when any `phase2_patterns` regex matches the
`web_uri` (the `for` loop over patterns). -/
def is_phase2 (s : Settings) (item : Item) : Bool :=
  let name := basename item.web_uri
  if name == s.autoindex_filename || s.entry_point_files.contains name then
    true
  else
    s.phase2_patterns.any (fun pattern => pattern item.web_uri)

/-- Structural worker for `chunkList`: `fuel` bounds the recursion depth;
every call site keeps `l.length ≤ fuel`, so with `0 < k` the
`(0, _ :: _)` case is never reached. -/
def chunkFuel (k : Nat) : Nat → List α → List (List α)
  | _, [] => []
  | 0, _ :: _ => []
  | fuel + 1, x :: xs =>
    (x :: xs).take k :: chunkFuel k fuel ((x :: xs).drop k)

/-- Splits a list into consecutive chunks of size `k` (the
`written_item_ids_batched` generator and the `yield_per` partitioning of
the item query). With `k = 0` the Python `range(0, n, 0)` would raise; the
embedding returns `[]` and the theorems that rely on chunking assume
`0 < k`. -/
def chunkList (k : Nat) (l : List α) : List (List α) :=
  if k = 0 then [] else chunkFuel k l.length l

/-!
## `_BatchWriter` worker loop and `stop()` (detailed model)

One worker thread of `_BatchWriter.write_batches` is embedded as a
sequential function consuming a script of iteration outcomes (what
`queue.get` returned and whether `dynamodb.write_batch` raised), acting on
the shared `errors` list. `stop()` is embedded over an explicit FIFO queue
(a list, head = front) with the effect of the `thread.join()` calls — the
workers draining the queue and appending worker errors — supplied as a
function parameter, constrained in the theorems by what workers can do:
pop entries from the front and append errors.
-/

/-- One entry of the shared `Queue`: either a batch of items (identified
here by their item ids) or the sentinel object. The sentinel is a unique
`object()` pushed only by `stop()`, so the identity test
`got is self.sentinel` is embedded as matching this constructor. -/
inductive QEntry where
  | batch (ids : List String)
  | sentinel
deriving DecidableEq, Repr

/-- True for a batch entry (i.e. not the sentinel). -/
def QEntry.isBatch : QEntry → Bool
  | .batch _ => true
  | .sentinel => false

/-- FIFO shape invariant of the shared queue: once a sentinel appears, no
batch entry follows. Batches are pushed only by `queue_batches` before
`stop()` runs and sentinels only by `stop()`, so the queue always has all
batches in front of all sentinels, and popping from the front preserves
this. -/
def noBatchAfterSentinel : List QEntry → Bool
  | [] => true
  | QEntry.batch _ :: rest => noBatchAfterSentinel rest
  | QEntry.sentinel :: rest => rest.all (fun e => !e.isBatch)

/-- Outcome of one iteration of the worker loop in
`_BatchWriter.write_batches`: what `self.queue.get(timeout=...)` produced
and, for a batch, whether `self.dynamodb.write_batch` raised. Only
`RuntimeError` and `ValueError` are listed for the write because those are
the exception types the `except` clause catches. -/
inductive WorkerEv where
  | gotSentinel
  | gotBatch (ids : List String)
  | popTimedOut
  | writeRaisedRuntime (msg : String)
  | writeRaisedValue (msg : String)
deriving DecidableEq, Repr

/-- Embeds the guard `err is not Empty` of the `except` clause in
`write_batches`. `err` is the exception INSTANCE just caught while `Empty`
is the exception CLASS, so this identity comparison is true for every
caught exception — including instances of `Empty` itself. -/
def errIsNotClassEmpty (_ : Exc) : Bool := true

/-- Embeds `_BatchWriter.write_batches` (one worker): loop while the shared
error list is empty; pop from the queue; exit on the sentinel; on a caught
exception, append it to the error list when `err is not Empty`
(see `errIsNotClassEmpty`) and exit. The script ending corresponds to the
worker blocking on an empty queue. Returns the final error list. -/
def write_batches (errors : List Exc) : List WorkerEv → List Exc
  | [] => errors
  | ev :: rest =>
    if errors.isEmpty then
      match ev with
      | .gotSentinel => errors
      | .gotBatch _ => write_batches errors rest
      | .popTimedOut =>
        if errIsNotClassEmpty Exc.empty then errors ++ [Exc.empty] else errors
      | .writeRaisedRuntime m =>
        if errIsNotClassEmpty (Exc.runtimeError m) then
          errors ++ [Exc.runtimeError m]
        else errors
      | .writeRaisedValue m =>
        if errIsNotClassEmpty (Exc.valueError m) then
          errors ++ [Exc.valueError m]
        else errors
    else errors

/-- Embeds the sentinel-push loop of `_BatchWriter.stop()`: one
`queue.put(self.sentinel, timeout=...)` per started worker thread.
`oks` lists, in order, whether each push succeeded; a failed push raises
`queue.Full`, which `append_error` records. The queue is FIFO: pushes
append at the tail. -/
def pushSentinels : List Bool → List QEntry → List Exc → List QEntry × List Exc
  | [], q, errs => (q, errs)
  | ok :: rest, q, errs =>
    if ok then pushSentinels rest (q ++ [QEntry.sentinel]) errs
    else pushSentinels rest q (errs ++ [Exc.full])

/-- Embeds `_BatchWriter.stop()`: push one sentinel per worker
(`pushSentinels`), join all workers (`join`, supplied as a parameter: the
net effect of the workers on the queue and error list while being joined),
then — if the queue is still non-empty — pop one entry and record
`RuntimeError("Commit incomplete, queue not empty")` unless it is the
sentinel; finally re-raise the first recorded error if any. Returns the
final error list and the raised error (`none` = normal return). -/
def bwStop (oks : List Bool)
    (join : List QEntry → List Exc → List QEntry × List Exc)
    (q0 : List QEntry) (errs0 : List Exc) : List Exc × Option Exc :=
  let pushed := pushSentinels oks q0 errs0
  let joined := join pushed.1 pushed.2
  let errs :=
    match joined.1 with
    | [] => joined.2
    | QEntry.sentinel :: _ => joined.2
    | QEntry.batch _ :: _ =>
      joined.2 ++ [Exc.runtimeError "Commit incomplete, queue not empty"]
  (errs, errs.head?)

/-!
## Commit flow model

The commit flow (`CommitBase` / `CommitPhase1` / `CommitPhase2` and the
`commit` actor) is embedded as explicit state passing over `St` plus an
ordered event trace. A `_BatchWriter` `with`-scope is collapsed
sequentially: a `bwOpen` event, one KV write/delete event per item the
scope submitted, and a `bwClose` event standing for `stop()` (queue
drained, workers joined, first recorded error re-raised). Subclass
method overrides are embedded by dispatching on the `CommitModes` value.
-/

/-- Observable events of one commit run, in program order.
`dbCommit` records the task and publish states durably committed by
`self.db.commit()`; `dirtyCleared` is the chunked
`UPDATE items SET dirty=FALSE` in `on_succeeded`; `recordPaths` is the
`PublishedPath` upsert; `cacheFlush` is `Flusher.run()`. Scope label `1`
is the phase-1 `_BatchWriter`, `2` the phase-2 one, `3` a delete-mode
rollback scope. -/
inductive Ev where
  | bwOpen (scope : Nat) (delete : Bool)
  | kvWrite (scope : Nat) (itemId : String)
  | kvDelete (itemId : String)
  | bwClose (scope : Nat)
  | dbCommit (ts : TaskStates) (ps : PublishStates)
  | cacheFlush (paths : List String)
  | recordPaths (paths : List String)
  | dirtyCleared (ids : List String)
deriving DecidableEq, Repr

/-- Mutable state of one commit run: the task row, the publish row, the
`written_item_ids` and `flush_paths` lists of the commit object, and the
event trace. `deadlinePassed` embeds `task.deadline and
task.deadline.timestamp() < now.timestamp()` evaluated at the readiness
check. -/
structure St where
  taskState : TaskStates
  deadlinePassed : Bool
  publishState : PublishStates
  written : List String
  flushPaths : List String
  trace : List Ev
deriving DecidableEq, Repr

/-- Nondeterministic outcomes of the external collaborators during one
run. `scope1Failure` / `scope2Failure`: `some (k, e)` means the phase-1
(resp. phase-2) `_BatchWriter` scope fails with `e` raised by `stop()`
after `k` items were queued (queueing short-circuits once an error is
recorded); `none` means the scope completes cleanly. `preWriteRaises`:
exception raised by the autoindex enricher in `CommitPhase2.pre_write`
(not part of src; treated as a black-box that may raise).
`rollbackRaises`: `some e` means the first delete-mode scope of
`rollback_publish_items` fails with `e`. -/
structure Oracle where
  preWriteRaises : Option Exc
  scope1Failure : Option (Nat × Exc)
  scope2Failure : Option (Nat × Exc)
  rollbackRaises : Option Exc

/-- Embeds `self.db.commit()`: records the current task and publish state
as durably committed. -/
def dbCommitNow (st : St) : St :=
  { st with trace := st.trace ++ [Ev.dbCommit st.taskState st.publishState] }

/-- Embeds `on_failed`: `CommitBase` sets the task state to `FAILED`;
the `CommitPhase2` override additionally sets the publish state to
`FAILED`. -/
def on_failed (mode : CommitModes) (st : St) : St :=
  let st := { st with taskState := TaskStates.failed }
  match mode with
  | .phase1 => st
  | .phase2 => { st with publishState := PublishStates.failed }

/-- Embeds `on_succeeded`: `CommitBase` sets the task state to `COMPLETE`
and clears the dirty flag of the written items in chunks of
`item_yield_size`; the `CommitPhase2` override additionally upserts
`PublishedPath` rows for the flush paths (the upsert statement is only
executed when the path list is non-empty) and sets the publish state to
`COMMITTED`. Alias expansion of the paths (`uris_with_aliases`) is
abstracted: the recorded paths are the commit object's `flush_paths`. -/
def on_succeeded (mode : CommitModes) (s : Settings) (st : St) : St :=
  let st := { st with
    taskState := TaskStates.complete,
    trace := st.trace
      ++ (chunkList s.item_yield_size st.written).map Ev.dirtyCleared }
  match mode with
  | .phase1 => st
  | .phase2 =>
    let st :=
      if st.flushPaths.isEmpty then st
      else { st with trace := st.trace ++ [Ev.recordPaths st.flushPaths] }
    { st with publishState := PublishStates.committed }

/-- Embeds the `task_ready` property: a task already in a terminal state
is not ready (warning logged, no state change); a task past its deadline
is failed via `on_failed` and the DB is committed; otherwise ready. -/
def task_ready (mode : CommitModes) (st : St) : St × Bool :=
  if st.taskState = TaskStates.complete ∨ st.taskState = TaskStates.failed then
    (st, false)
  else if st.deadlinePassed then
    (dbCommitNow (on_failed mode st), false)
  else (st, true)

/-- Acceptable publish states per commit mode (`PUBLISH_STATES` of
`CommitPhase1` / `CommitPhase2`). -/
def PUBLISH_STATES : CommitModes → List PublishStates
  | .phase1 => [PublishStates.committing, PublishStates.pending]
  | .phase2 => [PublishStates.committing]

/-- Embeds the `publish_ready` property: the publish state must be in the
mode's `PUBLISH_STATES`. -/
def publish_ready (mode : CommitModes) (st : St) : Bool :=
  decide (st.publishState ∈ PUBLISH_STATES mode)

/-- Embeds the `has_items` property: `item_count > 0`, where `item_count`
counts ALL items of the publish (no dirty filter). `items` is the list of
the publish's items. -/
def has_items (items : List Item) : Bool :=
  decide (items.length > 0)

/-- Embeds `should_write`: the three readiness gates in order. On a
deadline failure `task_ready` has already failed the task and committed;
on a bad publish state the task is failed directly (no `on_failed`) and
committed; on an empty publish `on_succeeded` runs and the DB is
committed (instant success). -/
def should_write (mode : CommitModes) (s : Settings) (st : St)
    (items : List Item) : St × Bool :=
  match task_ready mode st with
  | (st, false) => (st, false)
  | (st, true) =>
    if publish_ready mode st then
      if has_items items then (st, true)
      else (dbCommitNow (on_succeeded mode s st), false)
    else (dbCommitNow { st with taskState := TaskStates.failed }, false)

/-- Embeds the item selection for the write path: the base query takes the
publish's dirty items (ordered by `web_uri`; the order is represented by
the input list order), and the `CommitPhase1` override additionally drops
items whose `object_key` is NULL or empty (unresolved symlinks). -/
def selectedItems (mode : CommitModes) (items : List Item) : List Item :=
  let base := items.filter (fun it => it.dirty)
  match mode with
  | .phase1 => base.filter (fun it => it.object_key ≠ "")
  | .phase2 => base

/-- Embeds the body of the partition loop in
`CommitBase.write_publish_items` for one partition: `check_item` each item
in order (raising `ValueError` on an empty `object_key`), divert phase-2
items to `final_items`, collect the rest for `queue_batches`. Returns
(items queued from this partition, final items seen before any raise,
raised check error). When the check raises, nothing from this partition is
queued because `queue_batches` runs only after the partition loop. -/
def classifyPart (s : Settings) : List Item → List Item × List Item × Option Exc
  | [] => ([], [], none)
  | it :: rest =>
    if it.object_key == "" then
      ([], [], some (Exc.valueError ("BUG: missing object_key for " ++ it.web_uri)))
    else
      match classifyPart s rest with
      | (q, fin, e) =>
        if is_phase2 s it then (q, it :: fin, e) else (it :: q, fin, e)

/-- Folds `classifyPart` over the stream of partitions: partitions before
the one containing a bad item are fully queued; the failing partition
contributes no queued items and stops the stream. -/
def classifyParts (s : Settings) : List (List Item) → List Item × List Item × Option Exc
  | [] => ([], [], none)
  | p :: rest =>
    match classifyPart s p with
    | (_, fin, some e) => ([], fin, some e)
    | (q, fin, none) =>
      match classifyParts s rest with
      | (q2, fin2, e2) => (q ++ q2, fin ++ fin2, e2)

/-- Net result of the phase-1 `_BatchWriter` scope in
`CommitBase.write_publish_items`: the ids queued (and hence recorded in
`written_item_ids`), the accumulated `final_items`, and the exception the
scope raises, if any. A write failure recorded by a worker short-circuits
further queueing (`queue_batches` checks `self.errors`), so only a prefix
of `k` items is queued, and `stop()` re-raises the recorded error at scope
exit — taking precedence over a pending `check_item` `ValueError`, since
`__exit__` runs `stop()` while that exception unwinds. -/
def phase1ScopeResult (mode : CommitModes) (s : Settings)
    (f1 : Option (Nat × Exc)) (items : List Item) :
    List String × List Item × Option Exc :=
  let sel := selectedItems mode items
  let parts := chunkList s.item_yield_size sel
  match classifyParts s parts with
  | (q, fin, cerr) =>
    match f1 with
    | some (k, e) => ((q.take k).map Item.id, fin, some e)
    | none => (q.map Item.id, fin, cerr)

/-- Embeds `CommitBase.write_publish_items` (the shared phase-1 scope):
open a `_BatchWriter`, stream the partitions through `check_item` and
`is_phase2`, queue the phase-1 items, close the scope. Extends
`written_item_ids`, emits the scope's events, and returns the
`final_items` or the raised exception. -/
def writeItemsBase (mode : CommitModes) (s : Settings)
    (f1 : Option (Nat × Exc)) (st : St) (items : List Item) :
    St × Except Exc (List Item) :=
  match phase1ScopeResult mode s f1 items with
  | (w, fin, err) =>
    let st := { st with
      written := st.written ++ w,
      trace := st.trace ++ [Ev.bwOpen 1 false]
        ++ w.map (Ev.kvWrite 1) ++ [Ev.bwClose 1] }
    match err with
    | some e => (st, Except.error e)
    | none => (st, Except.ok fin)

/-- Embeds the per-path transformation of `CommitPhase2.add_flush_paths`:
for an autoindex file, flush the containing directory (with a trailing
slash) instead of the file itself. -/
def flushPathFor (s : Settings) (path : String) : String :=
  if basename path == s.autoindex_filename then
    let d := posixDirname path
    if d.endsWith "/" then d else d ++ "/"
  else path

/-- Embeds `CommitPhase2.flush_cache`: run the `Flusher` over the
accumulated flush paths when `cdn_flush_on_commit` is set. The `Flusher`
itself is an external collaborator; its invocation is the event. -/
def flush_cache (s : Settings) (st : St) : St :=
  if s.cdn_flush_on_commit then
    { st with trace := st.trace ++ [Ev.cacheFlush st.flushPaths] }
  else st

/-- The successful phase-2 scope of `CommitPhase2.write_publish_items`:
queue all `final_items` in a second `_BatchWriter` scope, record their
flush paths, close the scope, then flush the CDN cache. -/
def phase2ScopeSuccess (s : Settings) (st : St) (fin : List Item) : St :=
  let w := fin.map Item.id
  let st := { st with
    written := st.written ++ w,
    flushPaths := st.flushPaths ++ fin.map (fun it => flushPathFor s it.web_uri),
    trace := st.trace ++ [Ev.bwOpen 2 false]
      ++ w.map (Ev.kvWrite 2) ++ [Ev.bwClose 2] }
  flush_cache s st

/-- Embeds `write_publish_items` with subclass dispatch.
`CommitPhase1` runs only the shared phase-1 scope and returns `[]`.
`CommitPhase2` runs the phase-1 scope, then opens a SECOND scope for the
`final_items` — only after the first scope has closed — queues them,
records their flush paths, and flushes the cache on success. On a phase-2
write failure (`f2 = some (k, e)`), the `k`-item prefix is queued, the
flush paths are still recorded (that happens inside the scope body before
`stop()` raises), and `flush_cache` is NOT reached. A failure oracle for
an empty `final_items` list is vacuous: with no batches there is nothing
to fail, so the scope completes. -/
def write_publish_items (mode : CommitModes) (s : Settings)
    (f1 f2 : Option (Nat × Exc)) (st : St) (items : List Item) :
    St × Except Exc (List Item) :=
  match mode with
  | .phase1 =>
    match writeItemsBase CommitModes.phase1 s f1 st items with
    | (st, Except.error e) => (st, Except.error e)
    | (st, Except.ok _) => (st, Except.ok [])
  | .phase2 =>
    match writeItemsBase CommitModes.phase2 s f1 st items with
    | (st, Except.error e) => (st, Except.error e)
    | (st, Except.ok fin) =>
      match f2 with
      | some (k, e) =>
        if fin.isEmpty then (phase2ScopeSuccess s st fin, Except.ok [])
        else
          let w := (fin.take k).map Item.id
          let st := { st with
            written := st.written ++ w,
            flushPaths := st.flushPaths
              ++ fin.map (fun it => flushPathFor s it.web_uri),
            trace := st.trace ++ [Ev.bwOpen 2 false]
              ++ w.map (Ev.kvWrite 2) ++ [Ev.bwClose 2] }
          (st, Except.error e)
      | none => (phase2ScopeSuccess s st fin, Except.ok [])

/-- The events of the delete-mode `_BatchWriter` scopes of
`rollback_publish_items`: one scope per chunk of `written_item_ids`, each
reloading the chunk's items from the DB and submitting batch deletes. -/
def rollbackScopeEvents (chunks : List (List String)) : List Ev :=
  (chunks.map (fun c =>
    [Ev.bwOpen 3 true] ++ c.map Ev.kvDelete ++ [Ev.bwClose 3])).flatten

/-- Embeds `rollback_publish_items` with subclass dispatch: iterate the
chunks of `written_item_ids` (chunk size `item_yield_size`), submitting
each chunk through a delete-mode `_BatchWriter`; `CommitPhase2`
additionally flushes the CDN cache afterwards to restore the edge. When
the delete writes fail (`rbFail = some e`, possible only if there is at
least one chunk), the first scope raises and the remaining chunks and the
phase-2 cache flush are skipped. -/
def rollback_publish_items (mode : CommitModes) (s : Settings)
    (rbFail : Option Exc) (st : St) : St × Except Exc Unit :=
  let chunks := chunkList s.item_yield_size st.written
  match rbFail with
  | some e =>
    if chunks.isEmpty then
      let st := { st with trace := st.trace ++ rollbackScopeEvents chunks }
      match mode with
      | .phase1 => (st, Except.ok ())
      | .phase2 => (flush_cache s st, Except.ok ())
    else
      let st := { st with trace := st.trace ++ [Ev.bwOpen 3 true, Ev.bwClose 3] }
      (st, Except.error e)
  | none =>
    let st := { st with trace := st.trace ++ rollbackScopeEvents chunks }
    match mode with
    | .phase1 => (st, Except.ok ())
    | .phase2 => (flush_cache s st, Except.ok ())

/-- Embeds `CommitPhase2.pre_write` (the autoindex enricher, run before
the write path and NOT covered by the actor's try/except); `CommitPhase1`
inherits the base `pre_write`, which does nothing and cannot raise. -/
def pre_write : CommitModes → Oracle → Option Exc
  | .phase1, _ => none
  | .phase2, o => o.preWriteRaises

/-- Embeds the `except Exception` block of the `commit` actor: log, run
`rollback_publish_items` inside `try/finally`, with `on_failed()` and
`db.commit()` in the `finally`; then `return` (the caught write-path
exception is never re-raised). An exception raised by the rollback itself
propagates out of the actor after the `finally` has run. -/
def handleWritePathError (mode : CommitModes) (s : Settings)
    (rbFail : Option Exc) (st : St) (_exc : Exc) : St × Option Exc :=
  match rollback_publish_items mode s rbFail st with
  | (st, r) =>
    let st := dbCommitNow (on_failed mode st)
    match r with
    | Except.ok _ => (st, none)
    | Except.error e => (st, some e)

/-- Embeds the `commit` actor entry point: build the commit object for the
mode, run `should_write` (returning early when false), mark the task
`IN_PROGRESS` and commit, run `pre_write` OUTSIDE the try/except (an
exception here escapes to the broker), then the write path inside the
try/except: on success `on_succeeded` + DB commit, on failure
`handleWritePathError`. The second component is the exception escaping
the actor (`none` = the actor returns normally). -/
def commitActor (mode : CommitModes) (s : Settings) (o : Oracle)
    (items : List Item) (st0 : St) : St × Option Exc :=
  match should_write mode s st0 items with
  | (st, false) => (st, none)
  | (st, true) =>
    let st := dbCommitNow { st with taskState := TaskStates.in_progress }
    match pre_write mode o with
    | some e => (st, some e)
    | none =>
      match write_publish_items mode s o.scope1Failure o.scope2Failure st items with
      | (st, Except.ok _) => (dbCommitNow (on_succeeded mode s st), none)
      | (st, Except.error exc) => handleWritePathError mode s o.rollbackRaises st exc

/-- True for KV write/delete events (requests issued to DynamoDB). -/
def isKvEv : Ev → Bool
  | .kvWrite _ _ => true
  | .kvDelete _ => true
  | _ => false

/-- True for cache flush events. -/
def isFlushEv : Ev → Bool
  | .cacheFlush _ => true
  | _ => false

/-- True for events of the phase-1 `_BatchWriter` scope. -/
def isPhase1Ev : Ev → Bool
  | .bwOpen 1 _ => true
  | .kvWrite 1 _ => true
  | .bwClose 1 => true
  | _ => false

/-- True for events of the phase-2 `_BatchWriter` scope. -/
def isPhase2Ev : Ev → Bool
  | .bwOpen 2 _ => true
  | .kvWrite 2 _ => true
  | .bwClose 2 => true
  | _ => false

/-- The item id of a KV delete event. -/
def deleteId : Ev → Option String
  | .kvDelete i => some i
  | _ => none

/-- True for the opening event of a delete-mode rollback scope. -/
def isDeleteOpen : Ev → Bool
  | .bwOpen 3 true => true
  | _ => false

/-!
## Concrete instances used to evaluate the theorems on closed runs
-/

/-- A small concrete settings snapshot: default autoindex filename, one
entry-point file, no extra phase-2 patterns, chunk size 2, cache flush
enabled. -/
def sampleSettings : Settings :=
  ⟨".__exodus_autoindex", ["repomd.xml"], [], 2, true⟩

/-- An oracle where every external collaborator succeeds. -/
def quietOracle : Oracle := ⟨none, none, none, none⟩

/-- An oracle where the phase-1 `_BatchWriter` scope fails after queueing
two items, and everything else succeeds. -/
def failingWriteOracle : Oracle :=
  ⟨none, some (2, Exc.runtimeError "throttled"), none, none⟩

/-- An oracle where the phase-1 `_BatchWriter` scope fails after queueing
two items AND the rollback's own delete writes fail as well. -/
def failingRollbackOracle : Oracle :=
  ⟨none, some (2, Exc.runtimeError "throttled"), none,
    some (Exc.runtimeError "delete failed")⟩

/-- A fresh task/publish: task `NOT_STARTED`, deadline not passed, publish
`COMMITTING`, nothing written, empty trace. -/
def startSt : St :=
  ⟨TaskStates.not_started, false, PublishStates.committing, [], [], []⟩

/-- Three publish items: two ordinary binaries and one entry point. -/
def sampleItems : List Item :=
  [⟨"i1", "/d/a.rpm", "k1", true⟩, ⟨"i2", "/d/b.rpm", "k2", true⟩,
    ⟨"i3", "/d/repomd.xml", "k3", true⟩]

/-- A join effect for `bwStop`: the single worker pops one entry (the
leftover batch) and records no error. -/
def sampleJoin : List QEntry → List Exc → List QEntry × List Exc :=
  fun q e => (q.drop 1, e)

/-!
## Helper lemmas
-/

theorem stripLeadingSlash_slash_append (y : String) :
    stripLeadingSlash ("/" ++ y) = y := by
  have h : ("/" ++ y) = ⟨'/' :: y.data⟩ := by
    apply String.ext
    simp [String.data_append]
  rw [h]
  rfl

theorem flatten_chunkFuel (k : Nat) :
    ∀ (fuel : Nat) (l : List α), l.length ≤ fuel → 0 < k →
      (chunkFuel k fuel l).flatten = l := by
  intro fuel
  induction fuel with
  | zero =>
    intro l hl _
    have : l = [] := List.eq_nil_of_length_eq_zero (Nat.le_zero.mp hl)
    subst this
    rfl
  | succ n ih =>
    intro l hl hk
    match l with
    | [] => rfl
    | x :: xs =>
      show ((x :: xs).take k :: chunkFuel k n ((x :: xs).drop k)).flatten
        = x :: xs
      rw [List.flatten_cons]
      have hlen : ((x :: xs).drop k).length ≤ n := by
        simp only [List.length_drop, List.length_cons]
        simp only [List.length_cons] at hl
        omega
      rw [ih _ hlen hk, List.take_append_drop]

theorem flatten_chunkList (k : Nat) (l : List α) (hk : 0 < k) :
    (chunkList k l).flatten = l := by
  unfold chunkList
  rw [if_neg (Nat.pos_iff_ne_zero.mp hk)]
  exact flatten_chunkFuel k l.length l le_rfl hk

theorem deleteIds_rollbackScopeEvents (chunks : List (List String)) :
    (rollbackScopeEvents chunks).filterMap deleteId = chunks.flatten := by
  induction chunks with
  | nil => rfl
  | cons c rest ih =>
    simp only [rollbackScopeEvents, List.map_cons, List.flatten_cons] at *
    rw [List.filterMap_append, ih]
    congr 1
    rw [List.filterMap_append, List.filterMap_append]
    have h1 : List.filterMap deleteId [Ev.bwOpen 3 true] = [] := rfl
    have h3 : List.filterMap deleteId [Ev.bwClose 3] = [] := rfl
    rw [h1, h3]
    simp only [List.nil_append, List.append_nil]
    rw [List.filterMap_map]
    have : (deleteId ∘ Ev.kvDelete) = some := rfl
    rw [this, List.filterMap_some]

theorem countDeleteOpen_rollbackScopeEvents (chunks : List (List String)) :
    (rollbackScopeEvents chunks).countP isDeleteOpen = chunks.length := by
  induction chunks with
  | nil => rfl
  | cons c rest ih =>
    simp only [rollbackScopeEvents, List.map_cons, List.flatten_cons] at *
    rw [List.countP_append, ih]
    have h : ([Ev.bwOpen 3 true] ++ c.map Ev.kvDelete
        ++ [Ev.bwClose 3]).countP isDeleteOpen = 1 := by
      rw [List.countP_append, List.countP_append]
      have h2 : (c.map Ev.kvDelete).countP isDeleteOpen = 0 := by
        rw [List.countP_eq_zero]
        intro e he
        rcases List.mem_map.mp he with ⟨a, _, rfl⟩
        simp [isDeleteOpen]
      rw [h2]
      rfl
    rw [h, List.length_cons]
    omega

theorem on_failed_taskState (mode : CommitModes) (st : St) :
    (on_failed mode st).taskState = TaskStates.failed := by
  cases mode <;> rfl

theorem on_failed_trace (mode : CommitModes) (st : St) :
    (on_failed mode st).trace = st.trace := by
  cases mode <;> rfl

theorem on_failed_written (mode : CommitModes) (st : St) :
    (on_failed mode st).written = st.written := by
  cases mode <;> rfl

theorem on_succeeded_taskState (mode : CommitModes) (s : Settings) (st : St) :
    (on_succeeded mode s st).taskState = TaskStates.complete := by
  cases mode <;> simp only [on_succeeded] <;> split <;> rfl

theorem dbCommitNow_taskState (st : St) :
    (dbCommitNow st).taskState = st.taskState := rfl

theorem dbCommitNow_publishState (st : St) :
    (dbCommitNow st).publishState = st.publishState := rfl

theorem dbCommitNow_getLast (st : St) :
    (dbCommitNow st).trace.getLast? =
      some (Ev.dbCommit st.taskState st.publishState) := by
  simp [dbCommitNow]

theorem should_write_spec (mode : CommitModes) (s : Settings) (st : St)
    (items : List Item)
    (hc : st.taskState ≠ TaskStates.complete)
    (hf : st.taskState ≠ TaskStates.failed) :
    should_write mode s st items = (st, true)
    ∨ ∃ st', should_write mode s st items = (st', false)
        ∧ (st'.taskState = TaskStates.complete ∨ st'.taskState = TaskStates.failed)
        ∧ st'.trace.getLast? =
            some (Ev.dbCommit st'.taskState st'.publishState) := by
  unfold should_write task_ready
  rw [if_neg (by tauto)]
  by_cases hd : st.deadlinePassed
  · rw [if_pos hd]
    refine Or.inr ⟨_, rfl, ?_, ?_⟩
    · right
      rw [dbCommitNow_taskState, on_failed_taskState]
    · rw [dbCommitNow_taskState, dbCommitNow_publishState]
      exact dbCommitNow_getLast _
  · rw [if_neg hd]
    dsimp only
    by_cases hp : publish_ready mode st
    · rw [if_pos hp]
      by_cases hi : has_items items
      · rw [if_pos hi]
        exact Or.inl rfl
      · rw [if_neg hi]
        refine Or.inr ⟨_, rfl, ?_, ?_⟩
        · left
          rw [dbCommitNow_taskState, on_succeeded_taskState]
        · rw [dbCommitNow_taskState, dbCommitNow_publishState]
          exact dbCommitNow_getLast _
    · rw [if_neg hp]
      refine Or.inr ⟨_, rfl, Or.inr rfl, ?_⟩
      rw [dbCommitNow_taskState, dbCommitNow_publishState]
      exact dbCommitNow_getLast _

theorem handleWritePathError_spec (mode : CommitModes) (s : Settings)
    (rbFail : Option Exc) (st : St) (exc : Exc) :
    (handleWritePathError mode s rbFail st exc).1.taskState = TaskStates.failed
    ∧ ((handleWritePathError mode s rbFail st exc).2 = none
        ∨ ∃ e, rbFail = some e
            ∧ (handleWritePathError mode s rbFail st exc).2 = some e)
    ∧ (handleWritePathError mode s rbFail st exc).1.trace.getLast? =
        some (Ev.dbCommit
          (handleWritePathError mode s rbFail st exc).1.taskState
          (handleWritePathError mode s rbFail st exc).1.publishState) := by
  unfold handleWritePathError rollback_publish_items
  cases rbFail with
  | none =>
    cases mode <;>
      exact ⟨by rw [dbCommitNow_taskState, on_failed_taskState], Or.inl rfl,
        by rw [dbCommitNow_taskState, dbCommitNow_publishState]
           exact dbCommitNow_getLast _⟩
  | some e =>
    dsimp only
    by_cases hch : (chunkList s.item_yield_size st.written).isEmpty
    · rw [if_pos hch]
      cases mode <;>
        exact ⟨by rw [dbCommitNow_taskState, on_failed_taskState], Or.inl rfl,
          by rw [dbCommitNow_taskState, dbCommitNow_publishState]
             exact dbCommitNow_getLast _⟩
    · rw [if_neg hch]
      exact ⟨by rw [dbCommitNow_taskState, on_failed_taskState],
        Or.inr ⟨e, rfl, rfl⟩,
        by rw [dbCommitNow_taskState, dbCommitNow_publishState]
           exact dbCommitNow_getLast _⟩

/-!
## Claim theorems
-/

/-- C7: for every item and settings snapshot, `is_phase2` returns true if
and only if the basename of the item's `web_uri` equals the configured
autoindex filename, or is a member of the `entry_point_files` set, or the
`web_uri` matches at least one `phase2_patterns` regex. Purity and
determinism hold by construction: `is_phase2` is a total function of the
settings snapshot and the item, with no other inputs. -/
theorem is_phase2_iff_entry_point_or_pattern (s : Settings) (item : Item) :
    is_phase2 s item =
      ((basename item.web_uri == s.autoindex_filename)
        || s.entry_point_files.contains (basename item.web_uri)
        || s.phase2_patterns.any (fun pattern => pattern item.web_uri)) := by
  unfold is_phase2
  cases h1 : basename item.web_uri == s.autoindex_filename <;>
    cases h2 : s.entry_point_files.contains (basename item.web_uri) <;>
    simp_all

/-- C8: `CacheFlushRule.matches path` is true iff the leading-slash
normalized form of `path` matches at least one include pattern and no
exclude pattern; and the result is unchanged between the
without-leading-slash and with-leading-slash spellings of a path
(prepending `"/"` to the stripped path gives the same answer). -/
theorem cacheFlushRule_matches_includes_not_excludes
    (rule : CacheFlushRule) (path : String) :
    (rule.matches path =
      ((rule.includes.any (fun pat => pat ("/" ++ stripLeadingSlash path)))
        && !(rule.excludes.any (fun pat => pat ("/" ++ stripLeadingSlash path)))))
    ∧ rule.matches ("/" ++ stripLeadingSlash path) = rule.matches path := by
  constructor
  · unfold CacheFlushRule.matches
    cases h1 : rule.includes.any (fun pat => pat ("/" ++ stripLeadingSlash path)) <;>
      cases h2 : rule.excludes.any (fun pat => pat ("/" ++ stripLeadingSlash path)) <;>
      simp [h1, h2]
  · unfold CacheFlushRule.matches
    rw [stripLeadingSlash_slash_append]

theorem isPhase2Ev_scope1 (w1 : List String) :
    ∀ e ∈ [Ev.bwOpen 1 false] ++ w1.map (Ev.kvWrite 1) ++ [Ev.bwClose 1],
      isPhase2Ev e = false := by
  intro e he
  simp only [List.mem_append, List.mem_map, List.mem_singleton] at he
  rcases he with (rfl | ⟨a, _, rfl⟩) | rfl <;> rfl

theorem isPhase1Ev_scope2 (w2 : List String) (tail : List Ev)
    (htail : ∀ e ∈ tail, isPhase1Ev e = false) :
    ∀ e ∈ [Ev.bwOpen 2 false] ++ w2.map (Ev.kvWrite 2) ++ [Ev.bwClose 2] ++ tail,
      isPhase1Ev e = false := by
  intro e he
  simp only [List.mem_append, List.mem_map, List.mem_singleton] at he
  rcases he with ((rfl | ⟨a, _, rfl⟩) | rfl) | he
  · rfl
  · rfl
  · rfl
  · exact htail e he

theorem scope1_then_post_split (w1 : List String) (post : List Ev)
    (hpost : ∀ e ∈ post, isPhase1Ev e = false) :
    ∃ pre post2,
      ([Ev.bwOpen 1 false] ++ w1.map (Ev.kvWrite 1) ++ [Ev.bwClose 1]) ++ post
          = pre ++ post2
        ∧ (∀ e ∈ pre, isPhase2Ev e = false)
        ∧ (∀ e ∈ post2, isPhase1Ev e = false)
        ∧ Ev.bwClose 1 ∈ pre :=
  ⟨[Ev.bwOpen 1 false] ++ w1.map (Ev.kvWrite 1) ++ [Ev.bwClose 1], post, rfl,
    isPhase2Ev_scope1 w1, hpost, by simp⟩

/-- C5 (code bug): the claim and the spec say a worker that catches
`Empty` (queue-pop timeout) exits WITHOUT recording it as an error, the
evident intent of the in-code guard `if err is not Empty`. But that guard
compares the caught exception INSTANCE against the `Empty` CLASS, so it is
always true and the code records the `Empty` error: evaluating the
embedded worker loop on a single pop-timeout iteration leaves a recorded
`Empty` error (which `stop()` would then re-raise). -/
theorem write_batches_records_empty_timeout :
    write_batches [] [WorkerEv.popTimedOut] = [Exc.empty] := rfl

theorem chunkList_nil (k : Nat) : chunkList k ([] : List α) = [] := by
  unfold chunkList
  split <;> rfl

/-- C4: for every commit whose task is non-terminal but past its deadline
at the readiness check, the actor fails the task, commits the DB exactly
once recording the `FAILED` state, and issues no KV write or delete at
all (the run never reaches the write path), for any mode, settings,
oracle and item list. -/
theorem expired_task_fails_without_kv_writes (mode : CommitModes)
    (s : Settings) (o : Oracle) (items : List Item) (ts : TaskStates)
    (ps : PublishStates) (w fp : List String)
    (hc : ts ≠ TaskStates.complete) (hf : ts ≠ TaskStates.failed) :
    (commitActor mode s o items ⟨ts, true, ps, w, fp, []⟩).1.taskState
        = TaskStates.failed
    ∧ (commitActor mode s o items ⟨ts, true, ps, w, fp, []⟩).1.trace.filter
        isKvEv = []
    ∧ (∃ ps', (commitActor mode s o items ⟨ts, true, ps, w, fp, []⟩).1.trace
        = [Ev.dbCommit TaskStates.failed ps'])
    ∧ (commitActor mode s o items ⟨ts, true, ps, w, fp, []⟩).2 = none := by
  have hact : commitActor mode s o items ⟨ts, true, ps, w, fp, []⟩
      = (dbCommitNow (on_failed mode ⟨ts, true, ps, w, fp, []⟩), none) := by
    unfold commitActor should_write task_ready
    rw [if_neg (by tauto), if_pos rfl]
  rw [hact]
  refine ⟨by rw [dbCommitNow_taskState, on_failed_taskState], ?_,
    ⟨(on_failed mode ⟨ts, true, ps, w, fp, []⟩).publishState, ?_⟩, rfl⟩
  · show ((on_failed mode _).trace ++ _).filter isKvEv = []
    rw [on_failed_trace]
    simp [isKvEv]
  · show (on_failed mode _).trace ++ _ = _
    rw [on_failed_trace, on_failed_taskState]
    rfl

/-- C10: for a PHASE-2 commit whose task is non-terminal but past its
deadline at the readiness check, the deadline path calls `on_failed`,
which `CommitPhase2` overrides, so the publish state is set to `FAILED` in
addition to the task state — even though no KV request was ever issued. -/
theorem expired_phase2_task_also_fails_publish (s : Settings) (o : Oracle)
    (items : List Item) (ts : TaskStates) (ps : PublishStates)
    (w fp : List String)
    (hc : ts ≠ TaskStates.complete) (hf : ts ≠ TaskStates.failed) :
    (commitActor CommitModes.phase2 s o items
        ⟨ts, true, ps, w, fp, []⟩).1.taskState = TaskStates.failed
    ∧ (commitActor CommitModes.phase2 s o items
        ⟨ts, true, ps, w, fp, []⟩).1.publishState = PublishStates.failed
    ∧ (commitActor CommitModes.phase2 s o items
        ⟨ts, true, ps, w, fp, []⟩).1.trace.filter isKvEv = [] := by
  have hact : commitActor CommitModes.phase2 s o items ⟨ts, true, ps, w, fp, []⟩
      = (dbCommitNow (on_failed CommitModes.phase2 ⟨ts, true, ps, w, fp, []⟩),
          none) := by
    unfold commitActor should_write task_ready
    rw [if_neg (by tauto), if_pos rfl]
  rw [hact]
  refine ⟨rfl, rfl, ?_⟩
  show ((on_failed CommitModes.phase2 _).trace ++ _).filter isKvEv = []
  rw [on_failed_trace]
  simp [isKvEv]

/-- C9: a commit of a publish with zero items — task non-terminal, not
past its deadline, publish in a state allowed for the mode — instantly
succeeds: `should_write` runs `on_succeeded`, commits the DB and returns
false; the task ends `COMPLETE`, for a phase-2 commit the publish ends
`COMMITTED`, and the whole run performs exactly one DB commit with zero
KV writes and zero cache-flush calls. -/
theorem empty_commit_instant_success (mode : CommitModes) (s : Settings)
    (o : Oracle) (ts : TaskStates) (ps : PublishStates)
    (hc : ts ≠ TaskStates.complete) (hf : ts ≠ TaskStates.failed)
    (hp : ps ∈ PUBLISH_STATES mode) :
    (should_write mode s ⟨ts, false, ps, [], [], []⟩ []).2 = false
    ∧ (commitActor mode s o [] ⟨ts, false, ps, [], [], []⟩).1.taskState
        = TaskStates.complete
    ∧ (mode = CommitModes.phase2 →
        (commitActor mode s o [] ⟨ts, false, ps, [], [], []⟩).1.publishState
          = PublishStates.committed)
    ∧ (commitActor mode s o [] ⟨ts, false, ps, [], [], []⟩).1.trace
        = [Ev.dbCommit TaskStates.complete
            (commitActor mode s o [] ⟨ts, false, ps, [], [], []⟩).1.publishState]
    ∧ (commitActor mode s o [] ⟨ts, false, ps, [], [], []⟩).1.trace.filter
        isKvEv = []
    ∧ (commitActor mode s o [] ⟨ts, false, ps, [], [], []⟩).1.trace.filter
        isFlushEv = []
    ∧ (commitActor mode s o [] ⟨ts, false, ps, [], [], []⟩).2 = none := by
  have hsw : should_write mode s ⟨ts, false, ps, [], [], []⟩ []
      = (dbCommitNow (on_succeeded mode s ⟨ts, false, ps, [], [], []⟩), false) := by
    unfold should_write task_ready
    rw [if_neg (by tauto), if_neg (by simp)]
    dsimp only
    rw [if_pos (by simp [publish_ready, hp]), if_neg (by simp [has_items])]
  have hact : commitActor mode s o [] ⟨ts, false, ps, [], [], []⟩
      = (dbCommitNow (on_succeeded mode s ⟨ts, false, ps, [], [], []⟩), none) := by
    unfold commitActor
    rw [hsw]
  rw [hsw, hact]
  cases mode with
  | phase1 =>
    refine ⟨rfl, rfl, by simp, ?_, ?_, ?_, rfl⟩ <;>
      simp [dbCommitNow, on_succeeded, chunkList_nil, isKvEv, isFlushEv]
  | phase2 =>
    refine ⟨rfl, rfl, fun _ => rfl, ?_, ?_, ?_, rfl⟩ <;>
      simp [dbCommitNow, on_succeeded, chunkList_nil, isKvEv, isFlushEv]

theorem deleteIds_kvWrites (n : Nat) (w : List String) :
    (w.map (Ev.kvWrite n)).filterMap deleteId = [] := by
  induction w with
  | nil => rfl
  | cons a t ih => simpa [List.filterMap_cons, deleteId] using ih

theorem countDeleteOpen_kvWrites (n : Nat) (w : List String) :
    (w.map (Ev.kvWrite n)).countP isDeleteOpen = 0 := by
  rw [List.countP_eq_zero]
  intro e he
  rcases List.mem_map.mp he with ⟨a, _, rfl⟩
  simp [isDeleteOpen]

/-- C1 (counterexample): the claim "no exception escapes the actor and at
actor exit the task state is terminal" is false: `pre_write()` runs
OUTSIDE the actor's try/except (the code notes anything there is not
covered by rollback), so when the phase-2 autoindex enricher raises, the
exception escapes to the broker and the task is left `IN_PROGRESS` —
durably, since the `IN_PROGRESS` state was committed just before. -/
theorem commit_actor_pre_write_exception_escapes :
    (commitActor CommitModes.phase2
        ⟨".__exodus_autoindex", ["repomd.xml"], [], 5000, true⟩
        ⟨some (Exc.other "autoindex enrichment failed"), none, none, none⟩
        [⟨"i1", "/d/f.rpm", "k1", true⟩]
        ⟨TaskStates.not_started, false, PublishStates.committing, [], [], []⟩).2
      = some (Exc.other "autoindex enrichment failed")
    ∧ (commitActor CommitModes.phase2
        ⟨".__exodus_autoindex", ["repomd.xml"], [], 5000, true⟩
        ⟨some (Exc.other "autoindex enrichment failed"), none, none, none⟩
        [⟨"i1", "/d/f.rpm", "k1", true⟩]
        ⟨TaskStates.not_started, false, PublishStates.committing, [], [], []⟩).1.taskState
      = TaskStates.in_progress := by
  constructor <;> rfl

/-- C1 (amended): provided `pre_write` does not raise (it always succeeds
for phase 1; for phase 2 this excludes an autoindex failure), a commit run
starting from a non-terminal task ends with a terminal task state
(`COMPLETE` or `FAILED`), the last DB commit durably records exactly the
final task and publish states (`on_failed`/`on_succeeded` plus DB commit
always run), and every write-path exception is caught at the actor — the
only exception that can escape is one raised by `rollback_publish_items`
itself, after the `finally` block has already failed the task and
committed. -/
theorem commit_actor_write_path_contained (mode : CommitModes) (s : Settings)
    (o : Oracle) (items : List Item) (st0 : St)
    (hpre : pre_write mode o = none)
    (hc : st0.taskState ≠ TaskStates.complete)
    (hf : st0.taskState ≠ TaskStates.failed) :
    ((commitActor mode s o items st0).1.taskState = TaskStates.complete
      ∨ (commitActor mode s o items st0).1.taskState = TaskStates.failed)
    ∧ ((commitActor mode s o items st0).2 = none
      ∨ ∃ e, o.rollbackRaises = some e
          ∧ (commitActor mode s o items st0).2 = some e)
    ∧ (commitActor mode s o items st0).1.trace.getLast?
        = some (Ev.dbCommit (commitActor mode s o items st0).1.taskState
            (commitActor mode s o items st0).1.publishState) := by
  rcases should_write_spec mode s st0 items hc hf with hsw | ⟨st', hsw, hterm, hlast⟩
  · unfold commitActor
    rw [hsw]
    dsimp only
    rw [hpre]
    rcases hw : write_publish_items mode s o.scope1Failure o.scope2Failure
        (dbCommitNow { st0 with taskState := TaskStates.in_progress }) items
      with ⟨st2, r2⟩
    cases r2 with
    | ok fin =>
      dsimp only
      exact ⟨Or.inl (by rw [dbCommitNow_taskState, on_succeeded_taskState]),
        Or.inl rfl,
        by rw [dbCommitNow_taskState, dbCommitNow_publishState]
           exact dbCommitNow_getLast _⟩
    | error exc =>
      dsimp only
      obtain ⟨h1, h2, h3⟩ := handleWritePathError_spec mode s o.rollbackRaises st2 exc
      exact ⟨Or.inr h1, h2, h3⟩
  · have hact : commitActor mode s o items st0 = (st', none) := by
      unfold commitActor
      rw [hsw]
    rw [hact]
    exact ⟨hterm, Or.inl rfl, hlast⟩

/-- C2: in `CommitPhase2.write_publish_items`, the phase-1 `_BatchWriter`
scope closes (queue drained, workers joined, errors raised — the
`bwClose 1` event) before any phase-2 scope event occurs: the trace
splits into a prefix free of phase-2 events that contains `bwClose 1`,
followed by a suffix free of phase-1 events. In particular every phase-1
item write precedes every phase-2 item write, whatever the items, the
settings and the write-failure oracles. -/
theorem phase2_commit_phase1_scope_closes_first (s : Settings)
    (f1 f2 : Option (Nat × Exc)) (items : List Item) (ts : TaskStates)
    (dl : Bool) (ps : PublishStates) (w fp : List String) :
    ∃ pre post,
      (write_publish_items CommitModes.phase2 s f1 f2
          ⟨ts, dl, ps, w, fp, []⟩ items).1.trace = pre ++ post
        ∧ (∀ e ∈ pre, isPhase2Ev e = false)
        ∧ (∀ e ∈ post, isPhase1Ev e = false)
        ∧ Ev.bwClose 1 ∈ pre := by
  unfold write_publish_items writeItemsBase
  rcases h : phase1ScopeResult CommitModes.phase2 s f1 items with ⟨w1, fin, err⟩
  cases err with
  | some e =>
    dsimp only
    rcases scope1_then_post_split w1 [] (by simp) with ⟨pre, post, heq, hp1, hp2, hcl⟩
    exact ⟨pre, post, by simpa using heq, hp1, hp2, hcl⟩
  | none =>
    dsimp only
    cases f2 with
    | none =>
      rcases scope1_then_post_split w1
          ([Ev.bwOpen 2 false] ++ (fin.map Item.id).map (Ev.kvWrite 2)
            ++ [Ev.bwClose 2]
            ++ (if s.cdn_flush_on_commit then
                  [Ev.cacheFlush (fp
                    ++ fin.map (fun it => flushPathFor s it.web_uri))]
                else []))
          (isPhase1Ev_scope2 _ _ (by split <;> simp [isPhase1Ev]))
        with ⟨pre, post, heq, hp1, hp2, hcl⟩
      refine ⟨pre, post, ?_, hp1, hp2, hcl⟩
      rw [← heq]
      unfold phase2ScopeSuccess flush_cache
      by_cases hc : s.cdn_flush_on_commit <;> simp [hc]
    | some ke =>
      rcases ke with ⟨k, e⟩
      dsimp only
      by_cases hfin : fin.isEmpty
      · rw [if_pos hfin]
        rcases scope1_then_post_split w1
            ([Ev.bwOpen 2 false] ++ (fin.map Item.id).map (Ev.kvWrite 2)
              ++ [Ev.bwClose 2]
              ++ (if s.cdn_flush_on_commit then
                    [Ev.cacheFlush (fp
                      ++ fin.map (fun it => flushPathFor s it.web_uri))]
                  else []))
            (isPhase1Ev_scope2 _ _ (by split <;> simp [isPhase1Ev]))
          with ⟨pre, post, heq, hp1, hp2, hcl⟩
        refine ⟨pre, post, ?_, hp1, hp2, hcl⟩
        rw [← heq]
        unfold phase2ScopeSuccess flush_cache
        by_cases hc : s.cdn_flush_on_commit <;> simp [hc]
      · rw [if_neg hfin]
        rcases scope1_then_post_split w1
            ([Ev.bwOpen 2 false] ++ ((fin.take k).map Item.id).map (Ev.kvWrite 2)
              ++ [Ev.bwClose 2] ++ ([] : List Ev))
            (isPhase1Ev_scope2 _ [] (by simp))
          with ⟨pre, post, heq, hp1, hp2, hcl⟩
        refine ⟨pre, post, ?_, hp1, hp2, hcl⟩
        rw [← heq]
        simp

theorem writeItemsBase_trace_extension (mode : CommitModes) (s : Settings)
    (f1 : Option (Nat × Exc)) (st : St) (items : List Item) :
    ∃ ext, (writeItemsBase mode s f1 st items).1.trace = st.trace ++ ext
      ∧ ext.filterMap deleteId = []
      ∧ ext.countP isDeleteOpen = 0 := by
  unfold writeItemsBase
  rcases h : phase1ScopeResult mode s f1 items with ⟨w, fin, err⟩
  refine ⟨[Ev.bwOpen 1 false] ++ w.map (Ev.kvWrite 1) ++ [Ev.bwClose 1],
    ?_, ?_, ?_⟩
  · cases err <;> simp [List.append_assoc]
  · simp [List.filterMap_append, deleteIds_kvWrites, deleteId]
  · simp [List.countP_append, countDeleteOpen_kvWrites, isDeleteOpen]

theorem phase2ScopeSuccess_trace_extension (s : Settings) (st : St)
    (fin : List Item) :
    ∃ ext, (phase2ScopeSuccess s st fin).trace = st.trace ++ ext
      ∧ ext.filterMap deleteId = []
      ∧ ext.countP isDeleteOpen = 0 := by
  unfold phase2ScopeSuccess flush_cache
  by_cases hc : s.cdn_flush_on_commit
  · refine ⟨[Ev.bwOpen 2 false] ++ (fin.map Item.id).map (Ev.kvWrite 2)
        ++ [Ev.bwClose 2]
        ++ [Ev.cacheFlush (st.flushPaths
            ++ fin.map (fun it => flushPathFor s it.web_uri))], ?_, ?_, ?_⟩
    · simp [hc, List.append_assoc]
    · simp [List.filterMap_append, deleteIds_kvWrites, deleteId]
    · simp [List.countP_append, countDeleteOpen_kvWrites, isDeleteOpen]
  · refine ⟨[Ev.bwOpen 2 false] ++ (fin.map Item.id).map (Ev.kvWrite 2)
        ++ [Ev.bwClose 2], ?_, ?_, ?_⟩
    · simp [hc, List.append_assoc]
    · simp [List.filterMap_append, deleteIds_kvWrites, deleteId]
    · simp [List.countP_append, countDeleteOpen_kvWrites, isDeleteOpen]

theorem writePublishItems_trace_extension (mode : CommitModes) (s : Settings)
    (f1 f2 : Option (Nat × Exc)) (st : St) (items : List Item) :
    ∃ ext, (write_publish_items mode s f1 f2 st items).1.trace = st.trace ++ ext
      ∧ ext.filterMap deleteId = []
      ∧ ext.countP isDeleteOpen = 0 := by
  rcases writeItemsBase_trace_extension mode s f1 st items
    with ⟨ext1, htr1, hd1, hc1⟩
  cases mode with
  | phase1 =>
    unfold write_publish_items
    rcases hb : writeItemsBase CommitModes.phase1 s f1 st items with ⟨stb, r⟩
    rw [hb] at htr1
    cases r with
    | error e => exact ⟨ext1, htr1, hd1, hc1⟩
    | ok fin => exact ⟨ext1, htr1, hd1, hc1⟩
  | phase2 =>
    unfold write_publish_items
    rcases hb : writeItemsBase CommitModes.phase2 s f1 st items with ⟨stb, r⟩
    rw [hb] at htr1
    dsimp only at htr1
    cases r with
    | error e => exact ⟨ext1, htr1, hd1, hc1⟩
    | ok fin =>
      dsimp only
      cases f2 with
      | none =>
        rcases phase2ScopeSuccess_trace_extension s stb fin
          with ⟨ext2, htr2, hd2, hc2⟩
        refine ⟨ext1 ++ ext2, ?_, ?_, ?_⟩
        · rw [htr2, htr1, List.append_assoc]
        · rw [List.filterMap_append, hd1, hd2]
          rfl
        · rw [List.countP_append, hc1, hc2]
      | some ke =>
        rcases ke with ⟨k, e⟩
        dsimp only
        by_cases hfin : fin.isEmpty
        · rw [if_pos hfin]
          rcases phase2ScopeSuccess_trace_extension s stb fin
            with ⟨ext2, htr2, hd2, hc2⟩
          refine ⟨ext1 ++ ext2, ?_, ?_, ?_⟩
          · rw [htr2, htr1, List.append_assoc]
          · rw [List.filterMap_append, hd1, hd2]
            rfl
          · rw [List.countP_append, hc1, hc2]
        · rw [if_neg hfin]
          refine ⟨ext1 ++ ([Ev.bwOpen 2 false]
              ++ ((fin.take k).map Item.id).map (Ev.kvWrite 2)
              ++ [Ev.bwClose 2]), ?_, ?_, ?_⟩
          · rw [htr1]
            simp [List.append_assoc]
          · rw [List.filterMap_append, hd1]
            simp [List.filterMap_append, deleteIds_kvWrites, deleteId]
            intro a ha
            rcases List.mem_map.mp (List.take_subset _ _ ha) with ⟨b, hb2, rfl⟩
            rfl
          · rw [List.countP_append, hc1]
            simp [List.countP_append, countDeleteOpen_kvWrites, isDeleteOpen]
            intro a ha
            rcases List.mem_map.mp (List.take_subset _ _ ha) with ⟨b, hb2, rfl⟩
            rfl

/-- C3 (counterexample): the claim fails when the rollback's own delete
writes fail. In this concrete run the phase-1 scope raises after queueing
items "i1" and "i2", and the first delete-mode rollback scope raises too:
`written_item_ids` holds two ids yet NOT A SINGLE delete request is
submitted (the failing scope aborts and the remaining chunks are skipped),
while `on_failed` and the DB commit still run via the `finally` and the
rollback's exception escapes the actor. -/
theorem rollback_delete_failure_skips_written_ids :
    (commitActor CommitModes.phase2 sampleSettings failingRollbackOracle
        sampleItems startSt).1.written = ["i1", "i2"]
    ∧ (commitActor CommitModes.phase2 sampleSettings failingRollbackOracle
        sampleItems startSt).1.trace.filterMap deleteId = []
    ∧ (commitActor CommitModes.phase2 sampleSettings failingRollbackOracle
        sampleItems startSt).1.taskState = TaskStates.failed
    ∧ (commitActor CommitModes.phase2 sampleSettings failingRollbackOracle
        sampleItems startSt).2 = some (Exc.runtimeError "delete failed") :=
  ⟨rfl, rfl, rfl, rfl⟩

/-- C3 (amended): for ANY exception raised during the write path — a
phase-1 or phase-2 `_BatchWriter` scope failure or a `check_item`
`ValueError`, i.e. any run whose `write_publish_items` returns an error —
and provided the rollback's own delete writes succeed, the actor's error
handler submits exactly one delete request for every item ID in
`written_item_ids`, in order, through delete-mode `_BatchWriter` scopes
(one per `item_yield_size`-sized chunk of the reloaded ids); after which
`on_failed` sets the task state to `FAILED` (for a phase-2 commit also
the publish state to `FAILED`), followed by a DB commit recording the
failure, and the caught write-path exception is not re-raised. When a
delete write fails instead, the failing scope aborts the remaining
chunks — see the counterexample. -/
theorem rollback_deletes_every_written_id (mode : CommitModes) (s : Settings)
    (o : Oracle) (items : List Item) (ts : TaskStates) (ps : PublishStates)
    (st2 : St) (exc : Exc)
    (hc : ts ≠ TaskStates.complete) (hf : ts ≠ TaskStates.failed)
    (hp : ps ∈ PUBLISH_STATES mode) (hi : items ≠ [])
    (hyield : 0 < s.item_yield_size)
    (hpre : pre_write mode o = none)
    (hw : write_publish_items mode s o.scope1Failure o.scope2Failure
        (dbCommitNow { (⟨ts, false, ps, [], [], []⟩ : St) with
          taskState := TaskStates.in_progress }) items
      = (st2, Except.error exc))
    (hrb : o.rollbackRaises = none) :
    (commitActor mode s o items ⟨ts, false, ps, [], [], []⟩).1.trace.filterMap
        deleteId
      = (commitActor mode s o items ⟨ts, false, ps, [], [], []⟩).1.written
    ∧ (commitActor mode s o items ⟨ts, false, ps, [], [], []⟩).1.trace.countP
        isDeleteOpen
      = (chunkList s.item_yield_size
          (commitActor mode s o items ⟨ts, false, ps, [], [], []⟩).1.written).length
    ∧ (commitActor mode s o items ⟨ts, false, ps, [], [], []⟩).1.taskState
        = TaskStates.failed
    ∧ (mode = CommitModes.phase2 →
        (commitActor mode s o items ⟨ts, false, ps, [], [], []⟩).1.publishState
          = PublishStates.failed)
    ∧ (commitActor mode s o items ⟨ts, false, ps, [], [], []⟩).1.trace.getLast?
      = some (Ev.dbCommit TaskStates.failed
          (commitActor mode s o items ⟨ts, false, ps, [], [], []⟩).1.publishState)
    ∧ (commitActor mode s o items ⟨ts, false, ps, [], [], []⟩).2 = none := by
  have hsw : should_write mode s ⟨ts, false, ps, [], [], []⟩ items
      = (⟨ts, false, ps, [], [], []⟩, true) := by
    unfold should_write task_ready
    rw [if_neg (by tauto), if_neg (by simp)]
    dsimp only
    rw [if_pos (by simp [publish_ready, hp]),
      if_pos (by simp [has_items, List.length_pos]; exact hi)]
  have hact : commitActor mode s o items ⟨ts, false, ps, [], [], []⟩
      = handleWritePathError mode s o.rollbackRaises st2 exc := by
    unfold commitActor
    rw [hsw]
    dsimp only
    rw [hpre, hw]
  rcases writePublishItems_trace_extension mode s o.scope1Failure
      o.scope2Failure (dbCommitNow { (⟨ts, false, ps, [], [], []⟩ : St) with
        taskState := TaskStates.in_progress }) items
    with ⟨ext, htr, hdext, hcext⟩
  rw [hw] at htr
  dsimp only at htr
  have hd2 : st2.trace.filterMap deleteId = [] := by
    rw [htr, List.filterMap_append, hdext]
    simp [dbCommitNow, deleteId]
  have hc2 : st2.trace.countP isDeleteOpen = 0 := by
    rw [htr, List.countP_append, hcext]
    simp [dbCommitNow, isDeleteOpen]
  rw [hact, hrb]
  unfold handleWritePathError rollback_publish_items
  dsimp only
  cases mode with
  | phase1 =>
    dsimp only [on_failed, dbCommitNow]
    refine ⟨?_, ?_, rfl, by simp, ?_, rfl⟩
    · simp [List.filterMap_append, hd2, deleteIds_rollbackScopeEvents,
        flatten_chunkList _ _ hyield, deleteId]
    · simp [List.countP_append, hc2, countDeleteOpen_rollbackScopeEvents,
        isDeleteOpen]
    · simp [List.getLast?_append, List.getLast?_cons]
  | phase2 =>
    dsimp only [on_failed, dbCommitNow, flush_cache]
    by_cases hcdn : s.cdn_flush_on_commit
    · rw [if_pos hcdn]
      refine ⟨?_, ?_, rfl, fun _ => rfl, ?_, rfl⟩
      · simp [List.filterMap_append, hd2, deleteIds_rollbackScopeEvents,
          flatten_chunkList _ _ hyield, deleteId]
      · simp [List.countP_append, hc2, countDeleteOpen_rollbackScopeEvents,
          isDeleteOpen]
      · simp [List.getLast?_append, List.getLast?_cons]
    · rw [if_neg hcdn]
      refine ⟨?_, ?_, rfl, fun _ => rfl, ?_, rfl⟩
      · simp [List.filterMap_append, hd2, deleteIds_rollbackScopeEvents,
          flatten_chunkList _ _ hyield, deleteId]
      · simp [List.countP_append, hc2, countDeleteOpen_rollbackScopeEvents,
          isDeleteOpen]
      · simp [List.getLast?_append, List.getLast?_cons]

theorem pushSentinels_spec (oks : List Bool) (q : List QEntry)
    (errs : List Exc) :
    (pushSentinels oks q errs).1
        = q ++ List.replicate (oks.count true) QEntry.sentinel
    ∧ (pushSentinels oks q errs).2
        = errs ++ List.replicate (oks.count false) Exc.full := by
  induction oks generalizing q errs with
  | nil => simp [pushSentinels]
  | cons ok rest ih =>
    cases ok with
    | true =>
      rcases ih (q ++ [QEntry.sentinel]) errs with ⟨h1, h2⟩
      constructor
      · show (pushSentinels rest (q ++ [QEntry.sentinel]) errs).1 = _
        rw [h1]
        simp [List.count_cons, List.replicate_succ, List.append_assoc]
      · show (pushSentinels rest (q ++ [QEntry.sentinel]) errs).2 = _
        rw [h2]
        simp [List.count_cons]
    | false =>
      rcases ih q (errs ++ [Exc.full]) with ⟨h1, h2⟩
      constructor
      · show (pushSentinels rest q (errs ++ [Exc.full])).1 = _
        rw [h1]
        simp [List.count_cons]
      · show (pushSentinels rest q (errs ++ [Exc.full])).2 = _
        rw [h2]
        simp [List.count_cons, List.replicate_succ, List.append_assoc]

theorem noBatchAfterSentinel_of_all (l : List QEntry)
    (h : l.all (fun e => !e.isBatch) = true) :
    noBatchAfterSentinel l = true := by
  induction l with
  | nil => rfl
  | cons x rest ih =>
    rw [List.all_cons] at h
    rcases Bool.and_eq_true_iff.mp h with ⟨hx, hrest⟩
    cases x with
    | batch ids => simp [QEntry.isBatch] at hx
    | sentinel => exact hrest

theorem noBatchAfterSentinel_batches_sentinels (q : List QEntry) (n : Nat)
    (hq : q.all QEntry.isBatch = true) :
    noBatchAfterSentinel (q ++ List.replicate n QEntry.sentinel) = true := by
  induction q with
  | nil =>
    cases n with
    | zero => rfl
    | succ n =>
      show noBatchAfterSentinel (QEntry.sentinel :: List.replicate n QEntry.sentinel) = true
      show (List.replicate n QEntry.sentinel).all (fun e => !e.isBatch) = true
      rw [List.all_eq_true]
      intro e he
      rw [List.eq_of_mem_replicate he]
      rfl
  | cons x rest ih =>
    rw [List.all_cons] at hq
    rcases Bool.and_eq_true_iff.mp hq with ⟨hx, hrest⟩
    cases x with
    | sentinel => simp [QEntry.isBatch] at hx
    | batch ids => exact ih hrest

theorem noBatchAfterSentinel_drop (l : List QEntry) (m : Nat)
    (h : noBatchAfterSentinel l = true) :
    noBatchAfterSentinel (l.drop m) = true := by
  induction m generalizing l with
  | zero => exact h
  | succ m ih =>
    cases l with
    | nil => exact h
    | cons x rest =>
      rw [List.drop_succ_cons]
      apply ih
      cases x with
      | batch ids => exact h
      | sentinel => exact noBatchAfterSentinel_of_all rest h

/-- C6: `stop()` attempts one sentinel push per started worker — the queue
gains one sentinel per successful push, and one `queue.Full` error is
recorded per failed push, in order; after the join, the
"Commit incomplete, queue not empty" error is recorded exactly when the
queue still holds a batch (non-sentinel) entry; and the first recorded
error, if any, is re-raised — in particular a `Full` error from the very
first failed sentinel push is the one re-raised when no earlier error
exists. The join effect is constrained to what workers can do: pop
entries from the front (`hdrop`) and append errors (`happ`). -/
theorem bwStop_records_and_reraises (oks : List Bool)
    (join : List QEntry → List Exc → List QEntry × List Exc)
    (q0 : List QEntry) (e0 : List Exc) (q2 : List QEntry) (e2 : List Exc)
    (m : Nat)
    (hq0 : q0.all QEntry.isBatch = true)
    (hjoin : join (pushSentinels oks q0 e0).1 (pushSentinels oks q0 e0).2
        = (q2, e2))
    (hdrop : q2 = (pushSentinels oks q0 e0).1.drop m)
    (happ : ∃ extra, e2 = (pushSentinels oks q0 e0).2 ++ extra) :
    ((pushSentinels oks q0 e0).1
        = q0 ++ List.replicate (oks.count true) QEntry.sentinel
      ∧ (pushSentinels oks q0 e0).2
        = e0 ++ List.replicate (oks.count false) Exc.full)
    ∧ (bwStop oks join q0 e0).1
        = (if q2.any QEntry.isBatch then
            e2 ++ [Exc.runtimeError "Commit incomplete, queue not empty"]
          else e2)
    ∧ (bwStop oks join q0 e0).2 = (bwStop oks join q0 e0).1.head?
    ∧ (e0 = [] → oks.head? = some false →
        (bwStop oks join q0 e0).2 = some Exc.full)
  := by
  rcases pushSentinels_spec oks q0 e0 with ⟨hp1, hp2⟩
  have hshape : noBatchAfterSentinel q2 = true := by
    rw [hdrop, hp1]
    exact noBatchAfterSentinel_drop _ m
      (noBatchAfterSentinel_batches_sentinels q0 _ hq0)
  refine ⟨⟨hp1, hp2⟩, ?_, rfl, ?_⟩
  · simp only [bwStop]
    simp only [hjoin]
    cases q2 with
    | nil => simp
    | cons x rest =>
      cases x with
      | batch ids => simp [QEntry.isBatch]
      | sentinel =>
        have hall : rest.all (fun e => !e.isBatch) = true := hshape
        have hfalse : rest.any QEntry.isBatch = false := by
          rw [List.any_eq_false]
          intro e he
          have hne := (List.all_eq_true.mp hall) e he
          simpa using hne
        simp [QEntry.isBatch, hfalse]
  · intro he0 hok
    have hcount : 0 < oks.count false := by
      cases oks with
      | nil => simp at hok
      | cons x rest =>
        have hx : x = false := by simpa using hok
        subst hx
        simp [List.count_cons]
    have he2 : ∃ tl, e2 = Exc.full :: tl := by
      rcases happ with ⟨extra, hex⟩
      rw [hp2, he0] at hex
      rcases Nat.exists_eq_add_of_lt hcount with ⟨j, hj⟩
      rw [hj] at hex
      simp [List.replicate_succ] at hex
      exact ⟨_, hex⟩
    rcases he2 with ⟨tl, he2⟩
    simp only [bwStop]
    simp only [hjoin]
    cases q2 with
    | nil =>
      rw [he2]
      rfl
    | cons x rest =>
      cases x with
      | batch ids =>
        rw [he2]
        rfl
      | sentinel =>
        rw [he2]
        rfl

/-- Witness: the C4 theorem evaluated on a concrete expired phase-1
commit run. -/
theorem expired_task_fails_without_kv_writes_witness :
    (TaskStates.not_started ≠ TaskStates.complete
      ∧ TaskStates.not_started ≠ TaskStates.failed)
    ∧ ((commitActor CommitModes.phase1 sampleSettings quietOracle sampleItems
          ⟨TaskStates.not_started, true, PublishStates.committing, [], [],
            []⟩).1.taskState = TaskStates.failed
      ∧ (commitActor CommitModes.phase1 sampleSettings quietOracle sampleItems
          ⟨TaskStates.not_started, true, PublishStates.committing, [], [],
            []⟩).1.trace.filter isKvEv = []
      ∧ (∃ ps', (commitActor CommitModes.phase1 sampleSettings quietOracle
          sampleItems ⟨TaskStates.not_started, true, PublishStates.committing,
            [], [], []⟩).1.trace = [Ev.dbCommit TaskStates.failed ps'])
      ∧ (commitActor CommitModes.phase1 sampleSettings quietOracle sampleItems
          ⟨TaskStates.not_started, true, PublishStates.committing, [], [],
            []⟩).2 = none) :=
  ⟨⟨by decide, by decide⟩,
    expired_task_fails_without_kv_writes CommitModes.phase1 sampleSettings
      quietOracle sampleItems TaskStates.not_started PublishStates.committing
      [] [] (by decide) (by decide)⟩

/-- Witness: the C10 theorem evaluated on a concrete expired phase-2
commit run. -/
theorem expired_phase2_task_also_fails_publish_witness :
    (TaskStates.in_progress ≠ TaskStates.complete
      ∧ TaskStates.in_progress ≠ TaskStates.failed)
    ∧ ((commitActor CommitModes.phase2 sampleSettings quietOracle sampleItems
          ⟨TaskStates.in_progress, true, PublishStates.committing, [], [],
            []⟩).1.taskState = TaskStates.failed
      ∧ (commitActor CommitModes.phase2 sampleSettings quietOracle sampleItems
          ⟨TaskStates.in_progress, true, PublishStates.committing, [], [],
            []⟩).1.publishState = PublishStates.failed
      ∧ (commitActor CommitModes.phase2 sampleSettings quietOracle sampleItems
          ⟨TaskStates.in_progress, true, PublishStates.committing, [], [],
            []⟩).1.trace.filter isKvEv = []) :=
  ⟨⟨by decide, by decide⟩,
    expired_phase2_task_also_fails_publish sampleSettings quietOracle
      sampleItems TaskStates.in_progress PublishStates.committing [] []
      (by decide) (by decide)⟩

/-- Witness: the C9 theorem evaluated on a concrete empty phase-2
commit run. -/
theorem empty_commit_instant_success_witness :
    (TaskStates.not_started ≠ TaskStates.complete
      ∧ TaskStates.not_started ≠ TaskStates.failed
      ∧ PublishStates.committing ∈ PUBLISH_STATES CommitModes.phase2)
    ∧ ((should_write CommitModes.phase2 sampleSettings
          ⟨TaskStates.not_started, false, PublishStates.committing, [], [], []⟩
          []).2 = false
      ∧ (commitActor CommitModes.phase2 sampleSettings quietOracle []
          ⟨TaskStates.not_started, false, PublishStates.committing, [], [],
            []⟩).1.taskState = TaskStates.complete
      ∧ (CommitModes.phase2 = CommitModes.phase2 →
          (commitActor CommitModes.phase2 sampleSettings quietOracle []
            ⟨TaskStates.not_started, false, PublishStates.committing, [], [],
              []⟩).1.publishState = PublishStates.committed)
      ∧ (commitActor CommitModes.phase2 sampleSettings quietOracle []
          ⟨TaskStates.not_started, false, PublishStates.committing, [], [],
            []⟩).1.trace
        = [Ev.dbCommit TaskStates.complete
            (commitActor CommitModes.phase2 sampleSettings quietOracle []
              ⟨TaskStates.not_started, false, PublishStates.committing, [], [],
                []⟩).1.publishState]
      ∧ (commitActor CommitModes.phase2 sampleSettings quietOracle []
          ⟨TaskStates.not_started, false, PublishStates.committing, [], [],
            []⟩).1.trace.filter isKvEv = []
      ∧ (commitActor CommitModes.phase2 sampleSettings quietOracle []
          ⟨TaskStates.not_started, false, PublishStates.committing, [], [],
            []⟩).1.trace.filter isFlushEv = []
      ∧ (commitActor CommitModes.phase2 sampleSettings quietOracle []
          ⟨TaskStates.not_started, false, PublishStates.committing, [], [],
            []⟩).2 = none) :=
  ⟨⟨by decide, by decide, by decide⟩,
    empty_commit_instant_success CommitModes.phase2 sampleSettings quietOracle
      TaskStates.not_started PublishStates.committing (by decide) (by decide)
      (by decide)⟩

/-- Witness: the amended C1 theorem evaluated on a concrete phase-2 run
whose phase-1 write scope fails. -/
theorem commit_actor_write_path_contained_witness :
    (pre_write CommitModes.phase2 failingWriteOracle = none
      ∧ startSt.taskState ≠ TaskStates.complete
      ∧ startSt.taskState ≠ TaskStates.failed)
    ∧ (((commitActor CommitModes.phase2 sampleSettings failingWriteOracle
            sampleItems startSt).1.taskState = TaskStates.complete
        ∨ (commitActor CommitModes.phase2 sampleSettings failingWriteOracle
            sampleItems startSt).1.taskState = TaskStates.failed)
      ∧ ((commitActor CommitModes.phase2 sampleSettings failingWriteOracle
            sampleItems startSt).2 = none
        ∨ ∃ e, failingWriteOracle.rollbackRaises = some e
            ∧ (commitActor CommitModes.phase2 sampleSettings failingWriteOracle
                sampleItems startSt).2 = some e)
      ∧ (commitActor CommitModes.phase2 sampleSettings failingWriteOracle
          sampleItems startSt).1.trace.getLast?
        = some (Ev.dbCommit
            (commitActor CommitModes.phase2 sampleSettings failingWriteOracle
              sampleItems startSt).1.taskState
            (commitActor CommitModes.phase2 sampleSettings failingWriteOracle
              sampleItems startSt).1.publishState)) :=
  ⟨⟨rfl, by decide, by decide⟩,
    commit_actor_write_path_contained CommitModes.phase2 sampleSettings
      failingWriteOracle sampleItems startSt rfl (by decide) (by decide)⟩

/-- Witness: the amended C3 theorem evaluated on a concrete phase-2 run
whose write path raises (phase-1 scope failure after queueing two items)
and whose rollback delete writes succeed; both queued items receive
delete requests. -/
theorem rollback_deletes_every_written_id_witness :
    (TaskStates.not_started ≠ TaskStates.complete
      ∧ TaskStates.not_started ≠ TaskStates.failed
      ∧ PublishStates.committing ∈ PUBLISH_STATES CommitModes.phase2
      ∧ sampleItems ≠ []
      ∧ 0 < sampleSettings.item_yield_size
      ∧ pre_write CommitModes.phase2 failingWriteOracle = none
      ∧ write_publish_items CommitModes.phase2 sampleSettings
          failingWriteOracle.scope1Failure failingWriteOracle.scope2Failure
          (dbCommitNow { (⟨TaskStates.not_started, false,
            PublishStates.committing, [], [], []⟩ : St) with
            taskState := TaskStates.in_progress }) sampleItems
        = (⟨TaskStates.in_progress, false, PublishStates.committing,
            ["i1", "i2"], [],
            [Ev.dbCommit TaskStates.in_progress PublishStates.committing,
              Ev.bwOpen 1 false, Ev.kvWrite 1 "i1", Ev.kvWrite 1 "i2",
              Ev.bwClose 1]⟩,
          Except.error (Exc.runtimeError "throttled"))
      ∧ failingWriteOracle.rollbackRaises = none)
    ∧ ((commitActor CommitModes.phase2 sampleSettings failingWriteOracle
          sampleItems ⟨TaskStates.not_started, false, PublishStates.committing,
            [], [], []⟩).1.trace.filterMap deleteId
        = (commitActor CommitModes.phase2 sampleSettings failingWriteOracle
            sampleItems ⟨TaskStates.not_started, false,
              PublishStates.committing, [], [], []⟩).1.written
      ∧ (commitActor CommitModes.phase2 sampleSettings failingWriteOracle
          sampleItems ⟨TaskStates.not_started, false, PublishStates.committing,
            [], [], []⟩).1.trace.countP isDeleteOpen
        = (chunkList sampleSettings.item_yield_size
            (commitActor CommitModes.phase2 sampleSettings failingWriteOracle
              sampleItems ⟨TaskStates.not_started, false,
                PublishStates.committing, [], [], []⟩).1.written).length
      ∧ (commitActor CommitModes.phase2 sampleSettings failingWriteOracle
          sampleItems ⟨TaskStates.not_started, false, PublishStates.committing,
            [], [], []⟩).1.taskState = TaskStates.failed
      ∧ (CommitModes.phase2 = CommitModes.phase2 →
          (commitActor CommitModes.phase2 sampleSettings failingWriteOracle
            sampleItems ⟨TaskStates.not_started, false,
              PublishStates.committing, [], [], []⟩).1.publishState
            = PublishStates.failed)
      ∧ (commitActor CommitModes.phase2 sampleSettings failingWriteOracle
          sampleItems ⟨TaskStates.not_started, false, PublishStates.committing,
            [], [], []⟩).1.trace.getLast?
        = some (Ev.dbCommit TaskStates.failed
            (commitActor CommitModes.phase2 sampleSettings failingWriteOracle
              sampleItems ⟨TaskStates.not_started, false,
                PublishStates.committing, [], [], []⟩).1.publishState)
      ∧ (commitActor CommitModes.phase2 sampleSettings failingWriteOracle
          sampleItems ⟨TaskStates.not_started, false, PublishStates.committing,
            [], [], []⟩).2 = none) :=
  ⟨⟨by decide, by decide, by decide, by decide, by decide, rfl, rfl, rfl⟩,
    rollback_deletes_every_written_id CommitModes.phase2 sampleSettings
      failingWriteOracle sampleItems TaskStates.not_started
      PublishStates.committing
      ⟨TaskStates.in_progress, false, PublishStates.committing, ["i1", "i2"],
        [], [Ev.dbCommit TaskStates.in_progress PublishStates.committing,
          Ev.bwOpen 1 false, Ev.kvWrite 1 "i1", Ev.kvWrite 1 "i2",
          Ev.bwClose 1]⟩
      (Exc.runtimeError "throttled") (by decide) (by decide) (by decide)
      (by decide) (by decide) rfl rfl rfl⟩

/-- Witness: the C6 theorem evaluated on a concrete `stop()` run with two
workers, one failed sentinel push and one leftover batch popped by the
join. -/
theorem bwStop_records_and_reraises_witness :
    (([QEntry.batch ["i1"]].all QEntry.isBatch = true)
      ∧ sampleJoin (pushSentinels [false, true] [QEntry.batch ["i1"]] []).1
          (pushSentinels [false, true] [QEntry.batch ["i1"]] []).2
        = ([QEntry.sentinel], [Exc.full])
      ∧ [QEntry.sentinel]
        = (pushSentinels [false, true] [QEntry.batch ["i1"]] []).1.drop 1
      ∧ (∃ extra, [Exc.full]
          = (pushSentinels [false, true] [QEntry.batch ["i1"]] []).2 ++ extra))
    ∧ (((pushSentinels [false, true] [QEntry.batch ["i1"]] []).1
          = [QEntry.batch ["i1"]]
            ++ List.replicate ([false, true].count true) QEntry.sentinel
        ∧ (pushSentinels [false, true] [QEntry.batch ["i1"]] []).2
          = [] ++ List.replicate ([false, true].count false) Exc.full)
      ∧ (bwStop [false, true] sampleJoin [QEntry.batch ["i1"]] []).1
        = (if [QEntry.sentinel].any QEntry.isBatch then
            [Exc.full] ++ [Exc.runtimeError "Commit incomplete, queue not empty"]
          else [Exc.full])
      ∧ (bwStop [false, true] sampleJoin [QEntry.batch ["i1"]] []).2
        = (bwStop [false, true] sampleJoin [QEntry.batch ["i1"]] []).1.head?
      ∧ (([] : List Exc) = [] → [false, true].head? = some false →
          (bwStop [false, true] sampleJoin [QEntry.batch ["i1"]] []).2
            = some Exc.full)) :=
  ⟨⟨by decide, by decide, by decide, ⟨[], by decide⟩⟩,
    bwStop_records_and_reraises [false, true] sampleJoin
      [QEntry.batch ["i1"]] [] [QEntry.sentinel] [Exc.full] 1 (by decide)
      (by decide) (by decide) ⟨[], by decide⟩⟩
